import Mathlib

/-!
Verification of the itscope-shopify-connector order-reconciliation and
synchronization engine.

The definitions below are a shallow embedding, in Lean, of the TypeScript
sources of the repository:

* `src/src/app/api/webhooks/route.ts` — webhook handler `POST` and the order
  forwarding engine `handleOrderCreated`;
* `src/src/app/api/stock-sync/route.ts` — stock/price reconciliation loop;
* `src/src/app/api/order-status-sync/route.ts` — order-status reconciliation
  loop;
* `src/unnamed/part_003` (the supplier gateway `lib/itscope.ts`) —
  `buildOrderXml`, `sendOrder`, status/dispatch parsing.

JavaScript `null`/`undefined` is modelled by `Option`; JavaScript truthiness
on strings (`""`, `null` and `undefined` are falsy) is modelled by the
`jsTruthy*` helpers; JavaScript numbers are modelled as exact rationals `ℚ`
(for prices) and integers (for stock counts); timestamps (`new Date()`) are
threaded as explicit `now` parameters.  Network calls are threaded as
explicit oracle parameters recording whether the call returned a value or
threw.
-/

namespace ItScopeConnector

/-! ### JavaScript-semantics helpers -/

/-- Truthiness of a nullable JS string: `null`/`undefined` and `""` are falsy. -/
def jsTruthyOpt (o : Option String) : Bool :=
  match o with
  | some s => s != ""
  | none => false

/-- JS `x || ""` for a nullable string: any falsy value collapses to `""`. -/
def jsD (o : Option String) : String :=
  match o with
  | some s => s
  | none => ""

/-- JS `x || d` for a nullable string `x` and non-null default `d`. -/
def jsOrOpt (o : Option String) (d : String) : String :=
  match o with
  | some s => if s != "" then s else d
  | none => d

/-- JS `x || d` for two plain strings. -/
def jsOrStr (a b : String) : String :=
  if a != "" then a else b

/-- JS `x || null` on a string: `""` is normalised back to `null`. -/
def jsOrNull (o : Option String) : Option String :=
  match o with
  | some s => if s != "" then some s else none
  | none => none

/-- First truthy value of a JS `a || b || c || ...` chain of nullable strings. -/
def jsOrChain (l : List (Option String)) : Option String :=
  match l with
  | [] => none
  | o :: rest => if jsTruthyOpt o then o else jsOrChain rest

/-- JS `s.substring(0, n)` (ASCII payloads), as used for the own order id. -/
def strTake (s : String) (n : Nat) : String :=
  String.mk (s.data.take n)

/-- JS `s.toUpperCase()` (ASCII payloads). -/
def strToUpper (s : String) : String :=
  String.mk (s.data.map Char.toUpper)

/-- JS `s.trim()` (ASCII whitespace). -/
def strTrim (s : String) : String :=
  String.mk (((s.data.dropWhile Char.isWhitespace).reverse.dropWhile Char.isWhitespace).reverse)

/-- Helper for `jsIncludes`: is `pat` a contiguous sublist of `hay`? -/
def charsContain (hay pat : List Char) : Bool :=
  match hay with
  | [] => pat.isEmpty
  | _ :: t => pat.isPrefixOf hay || charsContain t pat

/-- JS `haystack.includes(needle)` — substring containment. -/
def jsIncludes (haystack needle : String) : Bool :=
  charsContain haystack.data needle.data

/-! ### Supplier gateway domain types (`src/unnamed/part_003`) -/

/-- Contract/project pricing entry carried by an offer (`ItScopeProject`). -/
structure ItScopeProject where
  manufacturerProjectId : String
  supplierProjectId : String
  projectName : String
  price : ℚ
  remainingQuantity : Int
  deriving DecidableEq

/-- One distributor's offer for a product (`ItScopeOffer`). -/
structure ItScopeOffer where
  supplierItemId : String
  distributorId : String
  distributorName : String
  supplierSKU : String
  price : ℚ
  priceCalc : ℚ
  stock : Int
  stockStatusText : String
  condition : String
  available : Bool
  projects : List ItScopeProject
  deriving DecidableEq

/-! ### Tracked-product store (Prisma `TrackedProduct` row, fields as used by
the routes; nullable columns are `Option`) -/

structure TrackedProduct where
  id : Nat
  shop : String
  itscopeSku : String
  /-- Nullable in the store; `""` models SQL `NULL` exactly as JS truthiness does. -/
  itscopeProductId : String
  shopifyProductId : Option String
  shopifyInventoryItemId : Option String
  distributorId : String
  distributorName : String
  productType : String
  shippingMode : String
  projectId : Option String
  importPrice : Option ℚ
  lastPrice : Option ℚ
  lastStock : Option Int
  lastStockSync : Nat
  priceAlert : Bool
  active : Bool
  deriving DecidableEq

/-! ### Stock/price reconciliation loop (`src/src/app/api/stock-sync/route.ts`) -/

/-- Outcome of one iteration of the per-product loop body: whether the
`updated` counter, the `errors` counter, or neither was incremented. -/
inductive SyncOutcome where
  | skipped
  | updated
  | error
  deriving DecidableEq

/-- Contribution of one loop iteration to the run's `{updated, errors}`
response counters (`updated++` / `errors++` in the route). -/
def outcomeDelta : SyncOutcome → Nat × Nat
  | .skipped => (0, 0)
  | .updated => (1, 0)
  | .error => (0, 1)

/-- One iteration of the stock-sync loop body (stock-sync route, lines 42–152)
for a single active tracked product.

* `fetchedOffers = none` models `getProductStock` throwing (network failure;
  an HTTP error status is already turned into `[]` inside `getProductStock`);
* `gatewayOk = false` models the Shopify inventory push
  (`getLocationId` / `inventoryActivate` / `inventorySetQuantities`) throwing;
* `now` is the timestamp taken for `lastStockSync: new Date()`.

The returned pair is the (possibly updated) row together with the counter
outcome of the iteration. -/
def syncProductStep (product : TrackedProduct) (fetchedOffers : Option (List ItScopeOffer))
    (gatewayOk : Bool) (now : Nat) : TrackedProduct × SyncOutcome :=
  if product.itscopeProductId == "" then (product, .skipped)
  else if product.productType == "Warranty" then (product, .skipped)
  else
    match fetchedOffers with
    | none => (product, .error)
    | some offers =>
      match offers.find? (fun o => o.distributorId == product.distributorId) with
      | none => (product, .skipped)
      | some selectedOffer =>
        if !gatewayOk then (product, .error)
        else
          let newStock := selectedOffer.stock
          let projectMatch :=
            match product.projectId with
            | some pid =>
              if pid != "" then
                selectedOffer.projects.find? (fun p : ItScopeProject => p.manufacturerProjectId == pid)
              else none
            | none => none
          let newPrice :=
            match projectMatch with
            | some pm => pm.price
            | none => selectedOffer.price
          let referencePrice := product.importPrice.getD (product.lastPrice.getD 0)
          let priceIncreased := decide (newPrice > referencePrice)
          ({ product with
              lastStock := some newStock
              lastPrice := some newPrice
              lastStockSync := now
              priceAlert := if priceIncreased then true else product.priceAlert },
           .updated)

/-! ### Order ledger (Prisma `Order` row, fields as used by the routes) -/

structure OrderRow where
  shop : String
  shopifyOrderId : String
  shopifyOrderNumber : String
  itscopeDealId : Option String
  itscopeOwnOrderId : String
  distributorId : String
  status : String
  errorMessage : Option String
  trackingNumber : Option String
  /-- The source stores the serial numbers JSON-encoded in a string column and
  decodes them with `JSON.parse` before use; the round trip is the identity on
  the list, so the column is modelled as the list itself. -/
  serialNumbers : Option (List String)
  dropship : Bool
  lastStatusCheck : Option Nat
  deriving DecidableEq

/-! ### Supplier status lookup results (`getDealStatus`/`fetchDispatchDocument`
in `src/unnamed/part_003`) -/

/-- Deal status as returned by `getDealStatus` (relevant fields). -/
structure DealStatus where
  dealId : String
  status : String
  statusMessage : String
  statusDate : String
  dispatchDocumentUrl : Option String
  invoiceDocumentUrl : Option String
  deriving DecidableEq

/-- Result of `fetchDispatchDocument`. -/
structure DispatchInfo where
  trackingNumbers : List String
  serialNumbers : List String
  deriving DecidableEq

/-- Outcome of the `getDealStatus` network call: it threw, or it returned
(`none` models the `null` returned on an HTTP error or missing deal). -/
inductive StatusFetch where
  | threw
  | returned (d : Option DealStatus)
  deriving DecidableEq

/-- Outcome of the `fetchDispatchDocument` network call. -/
inductive DispatchFetch where
  | threw
  | returned (info : DispatchInfo)
  deriving DecidableEq

/-! ### Order-status reconciliation loop
(`src/src/app/api/order-status-sync/route.ts`) -/

/-- The `findMany` filter of the loop: `status: { in: ["sent", "confirmed"] }`
(route lines 18–22).  Rows in any other status are not polled. -/
def statusSyncSelects (o : OrderRow) : Bool :=
  o.status == "sent" || o.status == "confirmed"

/-- The lookup id used against the supplier:
`order.itscopeDealId || order.itscopeOwnOrderId` (route line 30). -/
def statusLookupId (o : OrderRow) : String :=
  match o.itscopeDealId with
  | some s => if s != "" then s else o.itscopeOwnOrderId
  | none => o.itscopeOwnOrderId

/-- Status mapping (route lines 43–51): three independent `if`s over the
upper-cased supplier status text, each overriding the previous result;
unmatched text keeps the previous local status. -/
def mapDealStatus (prevStatus : String) (supplierStatus : String) : String :=
  let itscopeStatus := strToUpper supplierStatus
  let s1 :=
    if jsIncludes itscopeStatus "CONFIRMED" || jsIncludes itscopeStatus "ADVISED" then
      "confirmed"
    else prevStatus
  let s2 :=
    if jsIncludes itscopeStatus "SHIPPED" || jsIncludes itscopeStatus "DISPATCHED" then
      "shipped"
    else s1
  if jsIncludes itscopeStatus "DELIVERED" || jsIncludes itscopeStatus "COMPLETED" then
    "delivered"
  else s2

/-- Dispatch fetch is consulted only when `dealStatus.dispatchDocumentUrl` is
truthy; this is true exactly when the fetch is both wanted and threw. -/
def dispatchThrew (d : DealStatus) (dres : DispatchFetch) : Bool :=
  jsTruthyOpt d.dispatchDocumentUrl && (dres == .threw)

/-- Resolved tracking number (route lines 39, 55–62): the stored one, replaced
by the first tracking number of the dispatch document when one was fetched. -/
def resolveTracking (o : OrderRow) (d : DealStatus) (dres : DispatchFetch) : Option String :=
  if jsTruthyOpt d.dispatchDocumentUrl then
    match dres with
    | .returned info =>
      if info.trackingNumbers.length > 0 then info.trackingNumbers.head? else o.trackingNumber
    | .threw => none
  else o.trackingNumber

/-- Resolved serial numbers (route lines 40, 63–65). -/
def resolveSerials (o : OrderRow) (d : DealStatus) (dres : DispatchFetch) : Option (List String) :=
  if jsTruthyOpt d.dispatchDocumentUrl then
    match dres with
    | .returned info =>
      if info.serialNumbers.length > 0 then some info.serialNumbers else o.serialNumbers
    | .threw => none
  else o.serialNumbers

/-- Result of one iteration of the order-status loop body for one order. -/
structure StatusStepResult where
  row : OrderRow
  /-- Whether `createShopifyFulfillment` was invoked for this order. -/
  fulfillmentCalled : Bool
  updatedDelta : Nat
  errorsDelta : Nat
  deriving DecidableEq

/-- One iteration of the order-status loop body (route lines 27–96) for one
already-selected order.

* `fetch` is the outcome of `getDealStatus`;
* `dres` is the outcome of `fetchDispatchDocument` (consulted only when the
  deal status carries a truthy `dispatchDocumentUrl`);
* `fulfillOk = false` models `createShopifyFulfillment` throwing (its failure
  is caught by the per-order `try`, counted as an error, and skips the
  `prisma.order.update`);
* `now` is the timestamp for `lastStatusCheck: new Date()`. -/
def orderStatusStep (o : OrderRow) (fetch : StatusFetch) (dres : DispatchFetch)
    (fulfillOk : Bool) (now : Nat) : StatusStepResult :=
  match fetch with
  | .threw => ⟨o, false, 0, 1⟩
  | .returned d? =>
    if statusLookupId o == "" then ⟨o, false, 0, 0⟩
    else
      match d? with
      | none => ⟨o, false, 0, 0⟩
      | some d =>
        if dispatchThrew d dres then ⟨o, false, 0, 1⟩ else
        let newStatus := mapDealStatus o.status d.status
        let trackingNumber := resolveTracking o d dres
        let serialNumbers := resolveSerials o d dres
        let fulfillmentNeeded :=
          jsTruthyOpt trackingNumber && (newStatus == "shipped") && (o.status != "shipped")
        if fulfillmentNeeded && !fulfillOk then ⟨o, true, 0, 1⟩
        else
          ⟨{ o with
              status := newStatus
              trackingNumber := trackingNumber
              serialNumbers := serialNumbers
              lastStatusCheck := some now },
           fulfillmentNeeded,
           if newStatus != o.status then 1 else 0,
           0⟩

/-- One row of a reconciliation pass: rows not matching the `findMany` filter
are left untouched and trigger no network activity at all. -/
def statusSyncRunRow (o : OrderRow) (fetch : StatusFetch) (dres : DispatchFetch)
    (fulfillOk : Bool) (now : Nat) : StatusStepResult :=
  if statusSyncSelects o then orderStatusStep o fetch dres fulfillOk now
  else ⟨o, false, 0, 0⟩

/-! ### Supplier order document builder (`buildOrderXml`, `src/unnamed/part_003`) -/

/-- XML escaping of one character.  The source chains five global
`String.replace` calls (`&`, `<`, `>`, `"`, apostrophe, in that order); since
each target is a single character and no replacement string contains a target
of a later stage, the chain is exactly this character-wise map. -/
def escapeChar (c : Char) : String :=
  if c = '&' then "&amp;"
  else if c = '<' then "&lt;"
  else if c = '>' then "&gt;"
  else if c = '"' then "&quot;"
  else if c = Char.ofNat 39 then "&apos;"
  else String.singleton c

/-- `escapeXml` of the supplier gateway. -/
def escapeXml (s : String) : String :=
  String.join (s.data.map escapeChar)

/-- `stripZipPrefix` (`buildOrderXml` line 292): a `zip.replace` with the
anchored regex "caret, [A-Z]+, hyphen" and an empty replacement — strip a
leading run of uppercase letters followed by a hyphen.  (The greedy regex can
only match the maximal letter run, since every shorter run is followed by
another letter, never by a hyphen.) -/
def stripZipPrefix (zip : String) : String :=
  let letters := zip.data.takeWhile (fun c => 'A' ≤ c && c ≤ 'Z')
  match letters, zip.data.drop letters.length with
  | _ :: _, '-' :: tail => String.mk tail
  | _, _ => zip

/-- JS `Number.prototype.toFixed(2)` on an exact rational (rounding half away
from zero, which agrees with `toFixed` on exactly-representable inputs). -/
def toFixed2 (q : ℚ) : String :=
  let r : Int := if q ≥ 0 then ⌊q * 100 + 1 / 2⌋ else -⌊-q * 100 + 1 / 2⌋
  let a := r.natAbs
  let fracStr := if a % 100 < 10 then "0" ++ toString (a % 100) else toString (a % 100)
  (if r < 0 then "-" else "") ++ toString (a / 100) ++ "." ++ fracStr

/-- A line item of a supplier purchase order (`OrderLineItem`). -/
structure OrderLineItem where
  supplierPid : String
  itscopeProductId : String
  quantity : Nat
  description : String
  projectId : Option String
  unitPrice : Option ℚ
  /-- `"service" | "license" | "esd"`, set only for licensee-type items. -/
  productType : Option String
  deriving DecidableEq

/-- End customer (licensee) party (`CustomerParty`). -/
structure CustomerParty where
  company : String
  firstName : String
  lastName : String
  email : String
  phone : String
  street : String
  zip : String
  city : String
  country : String
  deriving DecidableEq

/-- Parameters of `buildOrderXml` (`OrderParams`). -/
structure OrderParams where
  orderId : String
  supplierId : String
  dropship : Bool
  buyerPartyId : String
  buyerCompany : String
  buyerStreet : String
  buyerZip : String
  buyerCity : String
  buyerCountry : String
  buyerPhone : Option String
  buyerFax : Option String
  buyerUrl : Option String
  buyerContactName : Option String
  buyerContactEmail : Option String
  deliveryCompany : Option String
  deliveryName : Option String
  deliveryStreet : Option String
  deliveryZip : Option String
  deliveryCity : Option String
  deliveryCountry : Option String
  deliveryContactName : Option String
  deliveryContactEmail : Option String
  deliveryPhone : Option String
  customerParty : Option CustomerParty
  lineItems : List OrderLineItem
  remarks : Option String
  deriving DecidableEq

/-- `deliveryContactName` local of `buildOrderXml` (lines 295–297). -/
def deliveryContactNameOf (params : OrderParams) : Option String :=
  if params.dropship then params.deliveryContactName else params.buyerContactName

/-- `deliveryContactEmail` local of `buildOrderXml` (lines 298–300). -/
def deliveryContactEmailOf (params : OrderParams) : Option String :=
  if params.dropship then params.deliveryContactEmail else params.buyerContactEmail

/-- `deliveryContactPhone` local of `buildOrderXml` (lines 301–303). -/
def deliveryContactPhoneOf (params : OrderParams) : Option String :=
  if params.dropship then params.deliveryPhone else params.buyerPhone

/-- `deliveryContactDetails` local of `buildOrderXml` (lines 305–311). -/
def deliveryContactDetailsXml (params : OrderParams) : String :=
  let nameOpt := deliveryContactNameOf params
  let emailOpt := deliveryContactEmailOf params
  if jsTruthyOpt nameOpt || jsTruthyOpt emailOpt then
    "\n            <CONTACT_DETAILS>\n              <ns2:CONTACT_NAME>"
      ++ escapeXml (jsD nameOpt) ++ "</ns2:CONTACT_NAME>"
      ++ (if jsTruthyOpt emailOpt then
            "\n              <ns2:EMAILS>\n                <ns2:EMAIL>"
              ++ escapeXml (jsD emailOpt)
              ++ "</ns2:EMAIL>\n              </ns2:EMAILS>"
          else "")
      ++ "\n            </CONTACT_DETAILS>"
  else ""

/-- Trailing `<ns2:PHONE>` of the delivery address (lines 324–325 resp.
337–338). -/
def deliveryPhoneXml (params : OrderParams) : String :=
  if jsTruthyOpt (deliveryContactPhoneOf params) then
    "\n          <ns2:PHONE type=\"office\">"
      ++ escapeXml (jsD (deliveryContactPhoneOf params)) ++ "</ns2:PHONE>"
  else ""

/-- `deliveryParty` local of `buildOrderXml` (lines 313–340): the dropship
branch synthesizes the delivery address from the shipping fields (falling back
to the buyer's), the warehouse branch uses the buyer's own address; both run
the ZIP through `stripZipPrefix`. -/
def deliveryPartyXml (params : OrderParams) : String :=
  if params.dropship then
    "<PARTY>\n        <ns2:PARTY_ID type=\"buyer_specific\">"
      ++ escapeXml params.buyerPartyId
      ++ "</ns2:PARTY_ID>\n        <PARTY_ROLE>delivery</PARTY_ROLE>\n        <ADDRESS>\n          <ns2:NAME>"
      ++ escapeXml (jsOrOpt params.deliveryCompany params.buyerCompany)
      ++ "</ns2:NAME>\n          <ns2:NAME2>"
      ++ escapeXml (jsD params.deliveryName)
      ++ "</ns2:NAME2>"
      ++ deliveryContactDetailsXml params
      ++ "\n          <ns2:STREET>"
      ++ escapeXml (jsOrOpt params.deliveryStreet params.buyerStreet)
      ++ "</ns2:STREET>\n          "
      ++ "<ns2:ZIP>"
      ++ escapeXml ( stripZipPrefix (jsOrOpt params.deliveryZip params.buyerZip))
      ++ "</ns2:ZIP>"
      ++ "\n          <ns2:CITY>"
      ++ escapeXml (jsOrOpt params.deliveryCity params.buyerCity)
      ++ "</ns2:CITY>\n          <ns2:COUNTRY>"
      ++ escapeXml (jsOrOpt params.deliveryCountry params.buyerCountry)
      ++ "</ns2:COUNTRY>\n          <ns2:COUNTRY_CODED>"
      ++ escapeXml (jsOrOpt params.deliveryCountry params.buyerCountry)
      ++ "</ns2:COUNTRY_CODED>"
      ++ deliveryPhoneXml params
      ++ "\n        </ADDRESS>\n      </PARTY>"
  else
    "<PARTY>\n        <ns2:PARTY_ID type=\"buyer_specific\">"
      ++ escapeXml params.buyerPartyId
      ++ "</ns2:PARTY_ID>\n        <PARTY_ROLE>delivery</PARTY_ROLE>\n        <ADDRESS>\n          <ns2:NAME>"
      ++ escapeXml params.buyerCompany
      ++ "</ns2:NAME>"
      ++ deliveryContactDetailsXml params
      ++ "\n          <ns2:STREET>"
      ++ escapeXml params.buyerStreet
      ++ "</ns2:STREET>\n          "
      ++ "<ns2:ZIP>"
      ++ escapeXml ( stripZipPrefix params.buyerZip)
      ++ "</ns2:ZIP>"
      ++ "\n          <ns2:CITY>"
      ++ escapeXml params.buyerCity
      ++ "</ns2:CITY>\n          <ns2:COUNTRY>"
      ++ escapeXml params.buyerCountry
      ++ "</ns2:COUNTRY>\n          <ns2:COUNTRY_CODED>"
      ++ escapeXml params.buyerCountry
      ++ "</ns2:COUNTRY_CODED>"
      ++ deliveryPhoneXml params
      ++ "\n        </ADDRESS>\n      </PARTY>"

/-- `hasLicenseeItems` local of `buildOrderXml` (line 343). -/
def hasLicenseeItems (params : OrderParams) : Bool :=
  params.lineItems.any (fun item => jsTruthyOpt item.productType)

/-- `customerPartyId` local of `buildOrderXml` (line 344). -/
def customerPartyId (params : OrderParams) : String :=
  params.buyerPartyId ++ "_CUSTOMER"

/-- `customerPartyXml` local of `buildOrderXml` (lines 345–366). -/
def customerPartyXml (params : OrderParams) : String :=
  match params.customerParty with
  | some cp =>
    if hasLicenseeItems params then
      "<PARTY>\n        <ns2:PARTY_ID type=\"buyer_specific\">"
        ++ escapeXml (customerPartyId params)
        ++ "</ns2:PARTY_ID>\n        <PARTY_ROLE>customer</PARTY_ROLE>\n        <ADDRESS>\n          <ns2:NAME>"
        ++ escapeXml (jsOrStr cp.company (cp.firstName ++ " " ++ cp.lastName))
        ++ "</ns2:NAME>\n          <CONTACT_DETAILS>\n            <ns2:CONTACT_NAME>"
        ++ escapeXml cp.lastName
        ++ "</ns2:CONTACT_NAME>\n            <ns2:FIRST_NAME>"
        ++ escapeXml cp.firstName
        ++ "</ns2:FIRST_NAME>\n            <ns2:PHONE>"
        ++ escapeXml cp.phone
        ++ "</ns2:PHONE>\n            <ns2:EMAILS>\n              <ns2:EMAIL>"
        ++ escapeXml cp.email
        ++ "</ns2:EMAIL>\n            </ns2:EMAILS>\n          </CONTACT_DETAILS>\n          <ns2:STREET>"
        ++ escapeXml cp.street
        ++ "</ns2:STREET>\n          <ns2:ZIP>"
        ++ escapeXml cp.zip
        ++ "</ns2:ZIP>\n          <ns2:CITY>"
        ++ escapeXml cp.city
        ++ "</ns2:CITY>\n          <ns2:COUNTRY>"
        ++ escapeXml cp.country
        ++ "</ns2:COUNTRY>\n          <ns2:COUNTRY_CODED>"
        ++ escapeXml cp.country
        ++ "</ns2:COUNTRY_CODED>\n        </ADDRESS>\n      </PARTY>"
    else ""
  | none => ""

/-- One `<ORDER_ITEM>` entry (lines 368–395); `idx` is the 0-based position in
`params.lineItems`, emitted as the 1-based `LINE_ITEM_ID`. -/
def orderItemXml (params : OrderParams) (idx : Nat) (item : OrderLineItem) : String :=
  "\n    <ORDER_ITEM>\n      <LINE_ITEM_ID>"
    ++ toString (idx + 1)
    ++ "</LINE_ITEM_ID>\n      <PRODUCT_ID>\n        <ns2:SUPPLIER_PID type=\"supplier_specific\">"
    ++ escapeXml item.supplierPid
    ++ "</ns2:SUPPLIER_PID>\n        <ns2:INTERNATIONAL_PID type=\"itscope\">"
    ++ escapeXml item.itscopeProductId
    ++ "</ns2:INTERNATIONAL_PID>\n        <ns2:DESCRIPTION_SHORT>"
    ++ escapeXml item.description
    ++ "</ns2:DESCRIPTION_SHORT>"
    ++ (if jsTruthyOpt item.productType then
          "\n        <ns2:PRODUCT_TYPE>" ++ escapeXml (jsD item.productType) ++ "</ns2:PRODUCT_TYPE>"
        else "")
    ++ "\n      </PRODUCT_ID>\n      <QUANTITY>"
    ++ toString item.quantity
    ++ "</QUANTITY>\n      <ns2:ORDER_UNIT>C62</ns2:ORDER_UNIT>"
    ++ (match item.unitPrice with
        | some up =>
          "\n      <PRODUCT_PRICE_FIX>\n        <ns2:PRICE_AMOUNT>"
            ++ toFixed2 up
            ++ "</ns2:PRICE_AMOUNT>\n      </PRODUCT_PRICE_FIX>\n      <PRICE_LINE_AMOUNT>"
            ++ toFixed2 (up * item.quantity)
            ++ "</PRICE_LINE_AMOUNT>"
        | none => "")
    ++ (if jsTruthyOpt item.projectId then
          "\n      <SOURCING_INFO>\n        <AGREEMENT>\n          <ns2:AGREEMENT_ID>"
            ++ escapeXml (jsD item.projectId)
            ++ "</ns2:AGREEMENT_ID>\n        </AGREEMENT>\n      </SOURCING_INFO>"
        else "")
    ++ (if jsTruthyOpt item.productType && params.customerParty.isSome then
          "\n      <CUSTOMER_ORDER_REFERENCE>\n        <CUSTOMER_IDREF type=\"buyer_specific\">"
            ++ escapeXml (customerPartyId params)
            ++ "</CUSTOMER_IDREF>\n      </CUSTOMER_ORDER_REFERENCE>"
        else "")
    ++ "\n    </ORDER_ITEM>"

/-- Buyer-party `CONTACT_DETAILS` conditional of the main template
(lines 415–421). -/
def buyerContactDetailsXml (params : OrderParams) : String :=
  if jsTruthyOpt params.buyerContactName || jsTruthyOpt params.buyerContactEmail then
    "\n            <CONTACT_DETAILS>\n              <ns2:CONTACT_NAME>"
      ++ escapeXml (jsOrOpt params.buyerContactName params.buyerCompany)
      ++ "</ns2:CONTACT_NAME>"
      ++ (if jsTruthyOpt params.buyerContactEmail then
            "\n              <ns2:EMAILS>\n                <ns2:EMAIL>"
              ++ escapeXml (jsD params.buyerContactEmail)
              ++ "</ns2:EMAIL>\n              </ns2:EMAILS>"
          else "")
      ++ "\n            </CONTACT_DETAILS>"
  else ""

/-- Buyer-party trailing phone/fax/url conditionals (lines 426–429). -/
def buyerPhoneFaxUrlXml (params : OrderParams) : String :=
  (if jsTruthyOpt params.buyerPhone then
      "\n            <ns2:PHONE type=\"office\">" ++ escapeXml (jsD params.buyerPhone) ++ "</ns2:PHONE>"
    else "")
    ++ (if jsTruthyOpt params.buyerFax then
          "\n            <ns2:FAX type=\"office\">" ++ escapeXml (jsD params.buyerFax) ++ "</ns2:FAX>"
        else "")
    ++ (if jsTruthyOpt params.buyerUrl then
          "\n            <ns2:URL>" ++ escapeXml (jsD params.buyerUrl) ++ "</ns2:URL>"
        else "")

/-- `buildOrderXml` (lines 290–454).  `new Date().toISOString()` is threaded
as the explicit `nowIso` argument; everything else follows the template
verbatim. -/
def buildOrderXml (params : OrderParams) (nowIso : String) : String :=
  let orderItems :=
    String.intercalate "\n" (params.lineItems.enum.map (fun p => orderItemXml params p.1 p.2))
  "<?xml version=\"1.0\" encoding=\"UTF-8\"?>\n<ORDER xmlns=\"http://www.opentrans.org/XMLSchema/2.1\" xmlns:ns2=\"http://www.bmecat.org/bmecat/2005\" version=\"2.1\" type=\"standard\">\n  <ORDER_HEADER>\n    <CONTROL_INFO>\n      <GENERATOR_INFO>ItScope-Shopify-Connector</GENERATOR_INFO>\n    </CONTROL_INFO>\n    <ORDER_INFO>\n      <ORDER_ID>"
    ++ escapeXml params.orderId
    ++ "</ORDER_ID>\n      <ORDER_DATE>"
    ++ nowIso
    ++ "</ORDER_DATE>\n      <PARTIES>\n        <PARTY>\n          <ns2:PARTY_ID type=\"supplier_specific\">"
    ++ escapeXml params.supplierId
    ++ "</ns2:PARTY_ID>\n          <PARTY_ROLE>supplier</PARTY_ROLE>\n        </PARTY>\n        <PARTY>\n          <ns2:PARTY_ID type=\"buyer_specific\">"
    ++ escapeXml params.buyerPartyId
    ++ "</ns2:PARTY_ID>\n          <PARTY_ROLE>buyer</PARTY_ROLE>\n          <ADDRESS>\n            <ns2:NAME>"
    ++ escapeXml params.buyerCompany
    ++ "</ns2:NAME>"
    ++ buyerContactDetailsXml params
    ++ "\n            <ns2:STREET>"
    ++ escapeXml params.buyerStreet
    ++ "</ns2:STREET>\n            "
    ++ "<ns2:ZIP>"
    ++ escapeXml params.buyerZip
    ++ "</ns2:ZIP>"
    ++ "\n            <ns2:CITY>"
    ++ escapeXml params.buyerCity
    ++ "</ns2:CITY>\n            <ns2:COUNTRY>"
    ++ escapeXml params.buyerCountry
    ++ "</ns2:COUNTRY>\n            <ns2:COUNTRY_CODED>"
    ++ escapeXml params.buyerCountry
    ++ "</ns2:COUNTRY_CODED>"
    ++ buyerPhoneFaxUrlXml params
    ++ "\n          </ADDRESS>\n        </PARTY>\n        "
    ++ deliveryPartyXml params
    ++ "\n        "
    ++ customerPartyXml params
    ++ "\n      </PARTIES>\n      <CUSTOMER_ORDER_REFERENCE>\n        <ORDER_ID>"
    ++ escapeXml params.orderId
    ++ "</ORDER_ID>\n      </CUSTOMER_ORDER_REFERENCE>\n      <ORDER_PARTIES_REFERENCE>\n        <ns2:BUYER_IDREF type=\"buyer_specific\">"
    ++ escapeXml params.buyerPartyId
    ++ "</ns2:BUYER_IDREF>\n        <ns2:SUPPLIER_IDREF type=\"supplier_specific\">"
    ++ escapeXml params.supplierId
    ++ "</ns2:SUPPLIER_IDREF>\n      </ORDER_PARTIES_REFERENCE>\n      <PARTIAL_SHIPMENT_ALLOWED>true</PARTIAL_SHIPMENT_ALLOWED>\n      "
    ++ (match params.remarks with
        | some r => if r != "" then "<REMARKS type=\"general\">" ++ escapeXml r ++ "</REMARKS>" else ""
        | none => "")
    ++ "\n      "
    ++ (if params.dropship then "<HEADER_UDX><UDX.DROPSHIPMENT>true</UDX.DROPSHIPMENT></HEADER_UDX>" else "")
    ++ "\n    </ORDER_INFO>\n  </ORDER_HEADER>\n  <ORDER_ITEM_LIST>\n    "
    ++ orderItems
    ++ "\n  </ORDER_ITEM_LIST>\n  <ORDER_SUMMARY>\n    <TOTAL_ITEM_NUM>"
    ++ toString params.lineItems.length
    ++ "</TOTAL_ITEM_NUM>\n  </ORDER_SUMMARY>\n</ORDER>"

/-! ### Supplier order submission (`sendOrder`, `src/unnamed/part_003`
lines 456–484) -/

/-- Result type of `sendOrder`. -/
structure SendOrderResult where
  success : Bool
  dealId : Option String
  error : Option String
  deriving DecidableEq

/-- The deal-id candidate fields of the parsed XML response body, in the order
probed by the source:
`parsed?.DEAL?.ID || parsed?.DEAL?.ORDERID || parsed?.orderId || parsed?.deal?.id || parsed?.deal?.orderId`. -/
structure ParsedSendResponse where
  dealIdUpper : Option String
  dealOrderIdUpper : Option String
  orderIdRoot : Option String
  dealIdLower : Option String
  dealOrderIdLower : Option String
  deriving DecidableEq

/-- The candidate chain as a list, probed left to right for the first truthy
value. -/
def dealIdCandidates (parsed : ParsedSendResponse) : List (Option String) :=
  [parsed.dealIdUpper, parsed.dealOrderIdUpper, parsed.orderIdRoot,
   parsed.dealIdLower, parsed.dealOrderIdLower]

/-- `sendOrder`, modelled at the level of the HTTP response: `httpOk` is
`response.ok`, `httpStatus`/`responseText` the status and body, `parsed` the
deal-id fields found in the parsed body.  On a non-ok status the call fails
with an error string; on an ok status it always succeeds, with
`dealId = String(dealId || "")` — the empty string when no candidate field is
truthy. -/
def sendOrder (httpOk : Bool) (httpStatus : Nat) (responseText : String)
    (parsed : ParsedSendResponse) : SendOrderResult :=
  if !httpOk then
    { success := false, dealId := none,
      error := some ("HTTP " ++ toString httpStatus ++ ": " ++ responseText) }
  else
    { success := true, dealId := some (jsD (jsOrChain (dealIdCandidates parsed))),
      error := none }

/-! ### Webhook payload and environment
(`src/src/app/api/webhooks/route.ts`) -/

/-- A storefront order line item (the fields read by the route).
`product_id` is the numeric storefront product id rendered as a string
(`String(item.product_id)`). -/
structure WebhookLineItem where
  product_id : String
  quantity : Nat
  title : String
  deriving DecidableEq

/-- A storefront address block; absent fields are `none`. -/
structure ShopifyAddress where
  first_name : Option String
  last_name : Option String
  company : Option String
  address1 : Option String
  address2 : Option String
  zip : Option String
  city : Option String
  country_code : Option String
  deriving DecidableEq

/-- The empty object `{}` used as last fallback for the shipping address. -/
def emptyAddress : ShopifyAddress :=
  ⟨none, none, none, none, none, none, none, none⟩

/-- The "order created" webhook payload (the fields read by the route). -/
structure OrderPayload where
  id : Nat
  order_number : Nat
  line_items : List WebhookLineItem
  shipping_address : Option ShopifyAddress
  billing_address : Option ShopifyAddress
  deriving DecidableEq

/-- The `process.env` configuration read by `handleOrderCreated`
(`ITSCOPE_ACCOUNT_ID` is non-null asserted, the `COMPANY_*` variables are
optional with defaults). -/
structure EnvConfig where
  itscopeAccountId : String
  companyName : Option String
  companyStreet : Option String
  companyZip : Option String
  companyCity : Option String
  companyCountry : Option String
  deriving DecidableEq

/-- Behaviour of one `sendOrder` gateway call: either the `fetch` rejected
(the exception propagates — there is no `try` inside `handleOrderCreated`) or
a `SendOrderResult` was returned. -/
inductive GatewayBehavior where
  | throws
  | returns (r : SendOrderResult)
  deriving DecidableEq

/-! ### Order forwarding engine (`handleOrderCreated`, webhooks route
lines 49–164) -/

/-- `gid://shopify/Product/id`. -/
def productGid (id : String) : String :=
  "gid://shopify/Product/" ++ id

/-- One iteration of the grouping loop (route lines 73–77): append the
product to its distributor's group, creating the group on first sight. -/
def gbStep (acc : List (String × List TrackedProduct)) (tp : TrackedProduct) :
    List (String × List TrackedProduct) :=
  if acc.any (fun g => g.1 == tp.distributorId) then
    acc.map (fun g => if g.1 == tp.distributorId then (g.1, g.2 ++ [tp]) else g)
  else acc ++ [(tp.distributorId, [tp])]

/-- The grouping `byDistributor` (route lines 72–77): a JS `Map` keyed by
distributor id, which preserves first-insertion key order and appends each
product to its group. -/
def groupByDistributor (tps : List TrackedProduct) : List (String × List TrackedProduct) :=
  tps.foldl gbStep []

/-- The tracked products matched by the delivery (route lines 53–67):
line-item product ids (stringified, falsy ones dropped), turned into product
gids and looked up among the shop's active tracked products.  `findMany`
returns rows in store order, modelled by the order of `db`. -/
def matchedProducts (shop : String) (order : OrderPayload) (db : List TrackedProduct) :
    List TrackedProduct :=
  let shopifyProductIds := (order.line_items.map (fun li => li.product_id)).filter (fun s => s != "")
  let gids := shopifyProductIds.map productGid
  db.filter (fun tp =>
    tp.shop == shop && tp.active &&
      (match tp.shopifyProductId with
       | some g => gids.contains g
       | none => false))

/-- The line items of one distributor group (route lines 87–103). -/
def groupLineItems (lineItems : List WebhookLineItem) (products : List TrackedProduct) :
    List OrderLineItem :=
  products.filterMap (fun tp =>
    match lineItems.find? (fun li => some (productGid li.product_id) == tp.shopifyProductId) with
    | none => none
    | some li =>
      some
        { supplierPid := tp.itscopeSku
          itscopeProductId := tp.itscopeProductId
          quantity := li.quantity
          description := jsOrStr li.title tp.itscopeSku
          projectId := jsOrNull tp.projectId
          unitPrice :=
            match tp.lastPrice with
            | some p => if p ≠ 0 then some p else none
            | none => none
          productType := none })

/-- The own order id (route line 108): `"SH" + order_number`, truncated to 18
characters — the same value for every distributor group of the order. -/
def ownOrderIdOf (order : OrderPayload) : String :=
  strTake ("SH" ++ toString order.order_number) 18

/-- The `shippingAddress` local (route line 80):
`order.shipping_address || order.billing_address || {}`. -/
def shippingAddressOf (order : OrderPayload) : ShopifyAddress :=
  match order.shipping_address with
  | some a => a
  | none =>
    match order.billing_address with
    | some a => a
    | none => emptyAddress

/-- The `buildOrderXml` parameters for one distributor group (route
lines 110–132). -/
def mkOrderParams (env : EnvConfig) (order : OrderPayload) (distributorId : String)
    (isDropship : Bool) (orderLineItems : List OrderLineItem) : OrderParams :=
  let a := shippingAddressOf order
  { orderId := ownOrderIdOf order
    supplierId := distributorId
    dropship := isDropship
    buyerPartyId := env.itscopeAccountId
    buyerCompany := jsOrOpt env.companyName "My Company"
    buyerStreet := jsD env.companyStreet
    buyerZip := jsD env.companyZip
    buyerCity := jsD env.companyCity
    buyerCountry := jsOrOpt env.companyCountry "DE"
    buyerPhone := none
    buyerFax := none
    buyerUrl := none
    buyerContactName := none
    buyerContactEmail := none
    deliveryCompany :=
      if isDropship then
        (let n := strTrim (jsD a.first_name ++ " " ++ jsD a.last_name)
         if n != "" then some n else a.company)
      else none
    deliveryName := if isDropship then some (jsD a.company) else none
    deliveryStreet :=
      if isDropship then
        some (jsD a.address1 ++
          (match a.address2 with
           | some s => if s != "" then " " ++ s else ""
           | none => ""))
      else none
    deliveryZip := if isDropship then some (jsD a.zip) else none
    deliveryCity := if isDropship then some (jsD a.city) else none
    deliveryCountry := if isDropship then some (jsOrOpt a.country_code "DE") else none
    deliveryContactName := none
    deliveryContactEmail := none
    deliveryPhone := none
    customerParty := none
    lineItems := orderLineItems
    remarks := some ("Shopify Order #" ++ toString order.order_number) }

/-- The ledger row written after the gateway call (route lines 142–154). -/
def mkOrderRow (shop : String) (order : OrderPayload) (distributorId : String)
    (ownOrderId : String) (isDropship : Bool) (result : SendOrderResult) : OrderRow :=
  { shop := shop
    shopifyOrderId := "gid://shopify/Order/" ++ toString order.id
    shopifyOrderNumber := toString order.order_number
    itscopeDealId := jsOrNull result.dealId
    itscopeOwnOrderId := ownOrderId
    distributorId := distributorId
    status := if result.success then "sent" else "error"
    errorMessage := jsOrNull result.error
    trackingNumber := none
    serialNumbers := none
    dropship := isDropship
    lastStatusCheck := none }

/-- The ledger already holds a row with this (shop, storefront order id,
distributor id) key. -/
def ledgerHasKey (ledger : List OrderRow) (shop shopifyOrderId distributorId : String) : Bool :=
  ledger.any (fun r =>
    r.shop == shop && r.shopifyOrderId == shopifyOrderId && r.distributorId == distributorId)

/-- Modelled from the spec: the Prisma schema is not under `src/`, and §3 of
the spec states that the Order table is "unique per (shop, storefront order
id, distributor id)" with the constraint enforced by the storage layer;
`prisma.order.create` therefore throws on a duplicate key.  `none` models the
thrown uniqueness violation (which `handleOrderCreated` does not catch). -/
def insertOrderRow (ledger : List OrderRow) (row : OrderRow) : Option (List OrderRow) :=
  if ledgerHasKey ledger row.shop row.shopifyOrderId row.distributorId then none
  else some (ledger ++ [row])

/-- Observable events of one engine run, in execution order. -/
inductive EngineEvent where
  /-- A `sendOrder` call was issued for this distributor with this own order id. -/
  | submitted (distributorId : String) (ownOrderId : String)
  /-- A ledger row was inserted. -/
  | inserted (row : OrderRow)
  /-- The ledger insert hit the uniqueness constraint and threw. -/
  | insertConflict (shop : String) (shopifyOrderId : String) (distributorId : String)
  deriving DecidableEq

/-- Result of one `handleOrderCreated` run: final ledger, event trace, and
whether the run ended by an uncaught exception (swallowed by `POST`). -/
structure EngineResult where
  ledger : List OrderRow
  trace : List EngineEvent
  threw : Bool
  deriving DecidableEq

/-- The rows inserted during a run, extracted from its trace. -/
def insertedRows (trace : List EngineEvent) : List OrderRow :=
  trace.filterMap (fun e =>
    match e with
    | .inserted r => some r
    | _ => none)

/-- The number of `sendOrder` calls of a trace. -/
def countSubmitted (trace : List EngineEvent) : Nat :=
  (trace.filter (fun e =>
    match e with
    | .submitted _ _ => true
    | _ => false)).length

/-- The per-group loop of `handleOrderCreated` (route lines 82–163), processed
in `byDistributor` insertion order.  For each group: skip it when its matched
line-item list is empty; otherwise call the gateway (`sendOrder`) FIRST and
insert the ledger row (status `"sent"`/`"error"`) AFTERWARDS.  A gateway
throw, or a uniqueness violation on the insert, propagates and aborts the
remaining groups. -/
def processGroups (shop : String) (order : OrderPayload) (env : EnvConfig)
    (gw : String → String → GatewayBehavior) (nowIso : String) :
    List (String × List TrackedProduct) → List OrderRow → EngineResult
  | [], ledger => ⟨ledger, [], false⟩
  | (distributorId, products) :: rest, ledger =>
    let orderLineItems := groupLineItems order.line_items products
    if orderLineItems.isEmpty then
      processGroups shop order env gw nowIso rest ledger
    else
      let isDropship := products.any (fun p => p.shippingMode == "dropship")
      let ownOrderId := ownOrderIdOf order
      let orderXml := buildOrderXml (mkOrderParams env order distributorId isDropship orderLineItems) nowIso
      match gw distributorId orderXml with
      | .throws => ⟨ledger, [.submitted distributorId ownOrderId], true⟩
      | .returns result =>
        let row := mkOrderRow shop order distributorId ownOrderId isDropship result
        match insertOrderRow ledger row with
        | none =>
          ⟨ledger,
           [.submitted distributorId ownOrderId,
            .insertConflict row.shop row.shopifyOrderId row.distributorId],
           true⟩
        | some ledger' =>
          let r := processGroups shop order env gw nowIso rest ledger'
          ⟨r.ledger, .submitted distributorId ownOrderId :: .inserted row :: r.trace, r.threw⟩

/-- `handleOrderCreated` (route lines 49–164). -/
def handleOrderCreated (shop : String) (order : OrderPayload) (db : List TrackedProduct)
    (env : EnvConfig) (gw : String → String → GatewayBehavior) (nowIso : String)
    (ledger : List OrderRow) : EngineResult :=
  let shopifyProductIds := (order.line_items.map (fun li => li.product_id)).filter (fun s => s != "")
  if shopifyProductIds.isEmpty then ⟨ledger, [], false⟩
  else
    let trackedProducts := matchedProducts shop order db
    if trackedProducts.isEmpty then ⟨ledger, [], false⟩
    else processGroups shop order env gw nowIso (groupByDistributor trackedProducts) ledger

/-! ### Webhook handler (`POST`, webhooks route lines 8–47) -/

/-- Outcome of the dispatched topic handler (e.g. `handleOrderCreated`):
completed, or threw (matching `EngineResult.threw`). -/
inductive HandlerOutcome where
  | ok
  | threw
  deriving DecidableEq

/-- An HTTP response, reduced to status code and body marker. -/
structure HttpResponse where
  status : Nat
  body : String
  deriving DecidableEq

/-- `POST` of the webhooks route.  `topic`/`shop`/`hmacHeader` are the three
request headers (`none` when absent); `hmacMatches` is the comparison of the
computed HMAC with the header; `parseOk` models `JSON.parse(rawBody)`
succeeding (it runs outside the `try`, so a parse exception escapes the
handler and surfaces as the framework's 500); `handler` is the outcome of the
dispatched topic handler, whose exceptions are caught and logged before the
unconditional `{ ok: true }` response. -/
def webhookPOST (topic shop hmacHeader : Option String) (hmacMatches : Bool)
    (parseOk : Bool) (handler : HandlerOutcome) : HttpResponse :=
  if !jsTruthyOpt topic || !jsTruthyOpt shop || !jsTruthyOpt hmacHeader then
    ⟨401, "Missing headers"⟩
  else if !hmacMatches then ⟨401, "Invalid HMAC"⟩
  else if !parseOk then ⟨500, "Internal Server Error"⟩
  else
    match handler with
    | .ok => ⟨200, "ok"⟩
    | .threw => ⟨200, "ok"⟩

/-! ### Analysis definitions (properties observed on the embedded code) -/

/-- `mid` occurs as a contiguous segment of `s`. -/
def existsMid (s mid : String) : Prop :=
  ∃ pre suf, s = pre ++ mid ++ suf

/-- A ledger row carries one of the two statuses the engine actually writes. -/
def rowStatusOk (r : OrderRow) : Bool :=
  r.status == "sent" || r.status == "error"

/-- Well-formedness of an engine trace: events come in per-group blocks, each
consisting of a supplier submission directly followed by at most one ledger
insert for the same distributor (with status `"sent"` or `"error"`); a
submission may be the last event (gateway throw), and an insert conflict is
always the final event of the run. -/
def traceOk : List EngineEvent → Bool
  | [] => true
  | [.submitted _ _] => true
  | .submitted d _ :: .inserted row :: rest =>
    (row.distributorId == d) && rowStatusOk row && traceOk rest
  | .submitted d _ :: .insertConflict _ _ d2 :: rest => (d2 == d) && rest.isEmpty
  | _ => false

/-- Every own order id mentioned in the trace equals `oid`. -/
def traceOwnIdsAll (trace : List EngineEvent) (oid : String) : Bool :=
  trace.all (fun e =>
    match e with
    | .submitted _ o => o == oid
    | .inserted row => row.itscopeOwnOrderId == oid
    | .insertConflict _ _ _ => true)

/-- No inserted row of the trace has status `"pending"`. -/
def traceNoPending (trace : List EngineEvent) : Bool :=
  trace.all (fun e =>
    match e with
    | .inserted row => row.status != "pending"
    | _ => true)

/-- The resolved price in the words of the spec (§4.4): "If a contract/project
id is set on the TrackedProduct and the offer carries a matching
contract-price entry, use that entry's price; otherwise use the offer's
standard price."  Stated independently of `syncProductStep` to be compared
with it. -/
def specResolvedPrice (product : TrackedProduct) (offer : ItScopeOffer) : ℚ :=
  match product.projectId with
  | some pid =>
    if pid != "" then
      match offer.projects.find? (fun p : ItScopeProject => p.manufacturerProjectId == pid) with
      | some pm => pm.price
      | none => offer.price
    else offer.price
  | none => offer.price

/-- The reference price in the words of the spec (§4.4): "import price if set,
else last-observed price, else zero". -/
def specReferencePrice (product : TrackedProduct) : ℚ :=
  product.importPrice.getD (product.lastPrice.getD 0)

/-! ### Concrete example inputs used by counterexamples and witnesses -/

/-- A shop domain. -/
def cexShop : String := "s1.myshopify.com"

/-- A merchant environment. -/
def cexEnv : EnvConfig :=
  ⟨"ACC1", some "ACME", some "Street 1", some "1010", some "Vienna", some "AT"⟩

/-- A gateway that accepts every submission and returns deal id `"D1"`. -/
def cexGw : String → String → GatewayBehavior :=
  fun _ _ => .returns ⟨true, some "D1", none⟩

/-- One tracked product bound to distributor `"D100"`. -/
def cexTp1 : TrackedProduct :=
  { id := 1, shop := cexShop, itscopeSku := "SKU1", itscopeProductId := "P1"
    shopifyProductId := some "gid://shopify/Product/11", shopifyInventoryItemId := none
    distributorId := "D100", distributorName := "DistOne", productType := "Laptop"
    shippingMode := "warehouse", projectId := none, importPrice := none
    lastPrice := none, lastStock := none, lastStockSync := 0
    priceAlert := false, active := true }

/-- An "order created" payload with a single tracked line item. -/
def cexOrder : OrderPayload :=
  { id := 9001, order_number := 1001
    line_items := [⟨"11", 1, "Item A"⟩]
    shipping_address := none, billing_address := none }

/-- First delivery of `cexOrder` on an empty ledger. -/
def cexRun1 : EngineResult :=
  handleOrderCreated cexShop cexOrder [cexTp1] cexEnv cexGw "t0" []

/-- Second (duplicate) delivery of `cexOrder` on the resulting ledger. -/
def cexRun2 : EngineResult :=
  handleOrderCreated cexShop cexOrder [cexTp1] cexEnv cexGw "t0" cexRun1.ledger

/-- Tracked product bound to distributor `"B"` (iterated first). -/
def c2TpB : TrackedProduct :=
  { id := 2, shop := cexShop, itscopeSku := "SKU-B", itscopeProductId := "PB"
    shopifyProductId := some "gid://shopify/Product/21", shopifyInventoryItemId := none
    distributorId := "B", distributorName := "DistB", productType := "Laptop"
    shippingMode := "warehouse", projectId := none, importPrice := none
    lastPrice := none, lastStock := none, lastStockSync := 0
    priceAlert := false, active := true }

/-- Tracked product bound to distributor `"A"` (iterated second). -/
def c2TpA : TrackedProduct :=
  { id := 3, shop := cexShop, itscopeSku := "SKU-A", itscopeProductId := "PA"
    shopifyProductId := some "gid://shopify/Product/22", shopifyInventoryItemId := none
    distributorId := "A", distributorName := "DistA", productType := "Laptop"
    shippingMode := "warehouse", projectId := none, importPrice := none
    lastPrice := none, lastStock := none, lastStockSync := 0
    priceAlert := false, active := true }

/-- Tracked-product store holding the two products (store order `B`, `A`). -/
def c2Db : List TrackedProduct := [c2TpB, c2TpA]

/-- An "order created" payload hitting both distributor groups. -/
def c2Order : OrderPayload :=
  { id := 9002, order_number := 1002
    line_items := [⟨"21", 1, "B item"⟩, ⟨"22", 2, "A item"⟩]
    shipping_address := none, billing_address := none }

/-- A gateway whose `sendOrder` call throws for distributor `"B"` and succeeds
for everyone else. -/
def c2Gw : String → String → GatewayBehavior :=
  fun d _ => if d == "B" then .throws else .returns ⟨true, some "DA", none⟩

/-- The run where group `B` (processed first) throws. -/
def c2Run : EngineResult :=
  handleOrderCreated cexShop c2Order c2Db cexEnv c2Gw "t0" []

/-- The two-group run where every gateway call succeeds. -/
def c3Run : EngineResult :=
  handleOrderCreated cexShop c2Order c2Db cexEnv cexGw "t0" []

/-- A ledger row already in status `"shipped"`, with everything needed for a
`shipped → delivered` transition on the supplier side. -/
def c7Row : OrderRow :=
  { shop := cexShop, shopifyOrderId := "gid://shopify/Order/9001"
    shopifyOrderNumber := "1001", itscopeDealId := some "DX"
    itscopeOwnOrderId := "SH1001", distributorId := "D100", status := "shipped"
    errorMessage := none, trackingNumber := some "TRK1", serialNumbers := none
    dropship := false, lastStatusCheck := none }

/-- A supplier deal status reporting `DELIVERED`. -/
def c7Deal : DealStatus :=
  ⟨"DX", "DELIVERED", "", "", none, none⟩

/-- An offer from distributor `"D100"` with standard price 200 and a contract
entry `PRJ1` at price 150. -/
def wOffer : ItScopeOffer :=
  { supplierItemId := "SI1", distributorId := "D100", distributorName := "DistOne"
    supplierSKU := "S-1", price := 200, priceCalc := 0, stock := 5
    stockStatusText := "", condition := "", available := true
    projects := [⟨"PRJ1", "SP1", "Proj", 150, 10⟩] }

/-- A tracked product carrying contract id `PRJ1`, import price 100. -/
def wProduct : TrackedProduct :=
  { id := 4, shop := cexShop, itscopeSku := "SKU1", itscopeProductId := "P1"
    shopifyProductId := some "gid://shopify/Product/11"
    shopifyInventoryItemId := some "gid://shopify/InventoryItem/31"
    distributorId := "D100", distributorName := "DistOne", productType := "Laptop"
    shippingMode := "warehouse", projectId := some "PRJ1", importPrice := some 100
    lastPrice := some 90, lastStock := some 2, lastStockSync := 0
    priceAlert := false, active := true }

/-- An offer list that contains no offer from `wProduct`'s distributor. -/
def wOtherOffers : List ItScopeOffer :=
  [{ supplierItemId := "SI2", distributorId := "D200", distributorName := "Other"
     supplierSKU := "S-2", price := 10, priceCalc := 0, stock := 1
     stockStatusText := "", condition := "", available := true, projects := [] }]

/-- A parsed `sendOrder` response body with no deal-id candidate present. -/
def wEmptyParsed : ParsedSendResponse := ⟨none, none, none, none, none⟩

/-! ## Theorems -/

/-- String append is associative (used to relocate segment boundaries in the
XML document). -/
theorem strAppendAssoc (a b c : String) : a ++ b ++ c = a ++ (b ++ c) := by
  rcases a with ⟨la⟩
  rcases b with ⟨lb⟩
  rcases c with ⟨lc⟩
  show String.mk (la ++ lb ++ lc) = String.mk (la ++ (lb ++ lc))
  rw [List.append_assoc]

/-- Appending the empty string on the left is the identity. -/
theorem strEmptyAppend (s : String) : "" ++ s = s := by
  rcases s with ⟨l⟩
  show String.mk ([] ++ l) = String.mk l
  rw [List.nil_append]

/-- A segment at the head of a concatenation. -/
theorem existsMid_here1 (a r : String) : existsMid (a ++ r) a :=
  ⟨"", r, by simp only [strAppendAssoc, strEmptyAppend]⟩

/-- A three-leaf segment at the head of a right-nested concatenation. -/
theorem existsMid_here3 (a b c r : String) : existsMid (a ++ (b ++ (c ++ r))) (a ++ b ++ c) :=
  ⟨"", r, by simp only [strAppendAssoc, strEmptyAppend]⟩

/-- A segment is preserved by prepending more text. -/
theorem existsMid_cons (x s mid : String) (h : existsMid s mid) : existsMid (x ++ s) mid := by
  obtain ⟨p, u, h⟩ := h
  exact ⟨x ++ p, u, by rw [h]; simp only [strAppendAssoc]⟩

/-- Bool identity used for the sticky-alert update shape. -/
theorem ifTrueOr (a b : Bool) : (if b then true else a) = (a || b) := by
  cases a <;> cases b <;> rfl

/-- C4: for every authenticated (headers present, HMAC matching), parseable
webhook delivery, `POST` returns the success response `200 { ok: true }`
regardless of the topic handler's outcome — handler exceptions are caught and
only logged, so internal failures are invisible in the HTTP response. -/
theorem webhookPOST_always_ok (topic shop hmacHeader : Option String)
    (ht : jsTruthyOpt topic = true) (hs : jsTruthyOpt shop = true)
    (hh : jsTruthyOpt hmacHeader = true) :
    ∀ handler : HandlerOutcome,
      webhookPOST topic shop hmacHeader true true handler = ⟨200, "ok"⟩ := by
  intro handler
  cases handler <;> simp [webhookPOST, ht, hs, hh]

/-- Witness for `webhookPOST_always_ok` at a concrete delivery whose handler
throws. -/
theorem webhookPOST_always_ok_witness :
    jsTruthyOpt (some "orders/create") = true ∧
    webhookPOST (some "orders/create") (some cexShop) (some "hmac0") true true .threw =
      ⟨200, "ok"⟩ :=
  ⟨by decide,
   webhookPOST_always_ok (some "orders/create") (some cexShop) (some "hmac0")
     (by decide) (by decide) (by decide) .threw⟩

/-- C5: one completed stock/price iteration persists, as `lastPrice`, the
matching contract-price entry when the product carries a contract id and the
offer has such an entry and the standard offer price otherwise, and persists
`priceAlert = (previous flag OR resolved price > reference price)`, the
reference price being import price, else last observed price, else zero — so
an already-set flag is never cleared by the loop. -/
theorem stockSync_price_and_alert (product : TrackedProduct) (offers : List ItScopeOffer)
    (selectedOffer : ItScopeOffer) (now : Nat)
    (hid : product.itscopeProductId ≠ "")
    (hwar : product.productType ≠ "Warranty")
    (hsel : offers.find? (fun o => o.distributorId == product.distributorId) = some selectedOffer) :
    (syncProductStep product (some offers) true now).2 = .updated ∧
    (syncProductStep product (some offers) true now).1.lastPrice =
      some (specResolvedPrice product selectedOffer) ∧
    (syncProductStep product (some offers) true now).1.priceAlert =
      (product.priceAlert || decide (specResolvedPrice product selectedOffer >
        specReferencePrice product)) := by
  have h1 : (product.itscopeProductId == "") = false := by
    simp [hid]
  have h2 : (product.productType == "Warranty") = false := by
    simp [hwar]
  rcases hpj : product.projectId with _ | pid
  · simp [syncProductStep, specResolvedPrice, specReferencePrice, h1, h2, hsel, hpj, ifTrueOr,
      Bool.or_comm]
  · by_cases hpe : pid = ""
    · subst hpe
      simp [syncProductStep, specResolvedPrice, specReferencePrice, h1, h2, hsel, hpj, ifTrueOr,
        Bool.or_comm]
    · have hpe' : (pid != "") = true := by simp [hpe]
      rcases hfind : selectedOffer.projects.find?
          (fun p : ItScopeProject => p.manufacturerProjectId == pid) with _ | pm
      · simp [syncProductStep, specResolvedPrice, specReferencePrice, h1, h2, hsel, hpj,
          hpe', hfind, ifTrueOr, Bool.or_comm]
      · simp [syncProductStep, specResolvedPrice, specReferencePrice, h1, h2, hsel, hpj,
          hpe', hfind, ifTrueOr, Bool.or_comm]

/-- Witness for `stockSync_price_and_alert`: contract entry 150 overrides
standard price 200, and the alert is raised against import price 100. -/
theorem stockSync_price_and_alert_witness :
    wProduct.itscopeProductId ≠ "" ∧
    [wOffer].find? (fun o => o.distributorId == wProduct.distributorId) = some wOffer ∧
    (syncProductStep wProduct (some [wOffer]) true 5).1.lastPrice =
      some (specResolvedPrice wProduct wOffer) ∧
    (syncProductStep wProduct (some [wOffer]) true 5).1.priceAlert =
      (wProduct.priceAlert || decide (specResolvedPrice wProduct wOffer >
        specReferencePrice wProduct)) :=
  ⟨by decide, by decide,
   (stockSync_price_and_alert wProduct [wOffer] wOffer 5 (by decide) (by decide) (by decide)).2.1,
   (stockSync_price_and_alert wProduct [wOffer] wOffer 5 (by decide) (by decide) (by decide)).2.2⟩

/-- C10: when the refreshed offer list contains no offer from the product's
bound distributor, the iteration leaves the row completely unchanged and
contributes to neither the `updated` nor the `errors` counter. -/
theorem stockSync_no_offer_unchanged (product : TrackedProduct) (offers : List ItScopeOffer)
    (gatewayOk : Bool) (now : Nat)
    (hsel : offers.find? (fun o => o.distributorId == product.distributorId) = none) :
    syncProductStep product (some offers) gatewayOk now = (product, .skipped) ∧
    outcomeDelta (syncProductStep product (some offers) gatewayOk now).2 = (0, 0) := by
  have h : syncProductStep product (some offers) gatewayOk now = (product, .skipped) := by
    unfold syncProductStep
    by_cases h1 : product.itscopeProductId == ""
    · simp [h1]
    · by_cases h2 : product.productType == "Warranty"
      · simp [h1, h2]
      · simp [h1, h2, hsel]
  exact ⟨h, by rw [h]; rfl⟩

/-- Witness for `stockSync_no_offer_unchanged` on an offer list from a
different distributor. -/
theorem stockSync_no_offer_unchanged_witness :
    wOtherOffers.find? (fun o => o.distributorId == wProduct.distributorId) = none ∧
    syncProductStep wProduct (some wOtherOffers) true 5 = (wProduct, .skipped) :=
  ⟨by decide, (stockSync_no_offer_unchanged wProduct wOtherOffers true 5 (by decide)).1⟩

/-- C9: an HTTP-ok supplier response with no extractable deal identifier still
yields `success = true` with `dealId = ""`; the forwarding engine then records
the ledger row as `"sent"` with a `null` supplier deal id, and the status
loop's lookup id falls back to the connector's own order id. -/
theorem sendOrder_empty_dealId (httpStatus : Nat) (responseText : String)
    (parsed : ParsedSendResponse) (shop : String) (order : OrderPayload)
    (distributorId ownOrderId : String) (isDropship : Bool)
    (hempty : jsOrChain (dealIdCandidates parsed) = none) :
    sendOrder true httpStatus responseText parsed = ⟨true, some "", none⟩ ∧
    (mkOrderRow shop order distributorId ownOrderId isDropship
        (sendOrder true httpStatus responseText parsed)).status = "sent" ∧
    (mkOrderRow shop order distributorId ownOrderId isDropship
        (sendOrder true httpStatus responseText parsed)).itscopeDealId = none ∧
    statusLookupId (mkOrderRow shop order distributorId ownOrderId isDropship
        (sendOrder true httpStatus responseText parsed)) = ownOrderId := by
  have h : sendOrder true httpStatus responseText parsed = ⟨true, some "", none⟩ := by
    simp [sendOrder, hempty, jsD]
  refine ⟨h, ?_, ?_, ?_⟩ <;> rw [h] <;> simp [mkOrderRow, statusLookupId, jsOrNull]

/-- Witness for `sendOrder_empty_dealId` on a response body with no deal-id
field. -/
theorem sendOrder_empty_dealId_witness :
    jsOrChain (dealIdCandidates wEmptyParsed) = none ∧
    sendOrder true 200 "" wEmptyParsed = ⟨true, some "", none⟩ ∧
    statusLookupId (mkOrderRow cexShop cexOrder "D100" "SH1001" false
        (sendOrder true 200 "" wEmptyParsed)) = "SH1001" :=
  ⟨by decide,
   (sendOrder_empty_dealId 200 "" wEmptyParsed cexShop cexOrder "D100" "SH1001" false
     (by decide)).1,
   (sendOrder_empty_dealId 200 "" wEmptyParsed cexShop cexOrder "D100" "SH1001" false
     (by decide)).2.2.2⟩

/-- C6: the status loop invokes the storefront fulfillment creation exactly
when the order is polled at all (status `sent`/`confirmed`), its supplier
lookup succeeded, the newly mapped status is `shipped`, the previous status
was not already `shipped`, and a tracking number is available.  In particular
an order already `shipped` is never polled again, so a repeated pass creates
no second fulfillment. -/
theorem statusSync_fulfillment_iff (o : OrderRow) (d : DealStatus) (dres : DispatchFetch)
    (fulfillOk : Bool) (now : Nat) :
    (statusSyncRunRow o (.returned (some d)) dres fulfillOk now).fulfillmentCalled =
      (statusSyncSelects o && (statusLookupId o != "") && !dispatchThrew d dres &&
        (jsTruthyOpt (resolveTracking o d dres) && (mapDealStatus o.status d.status == "shipped") &&
          (o.status != "shipped"))) := by
  unfold statusSyncRunRow orderStatusStep
  by_cases hsel : statusSyncSelects o
  · by_cases hlk : statusLookupId o == ""
    · have hlk'' : (statusLookupId o != "") = false := by simp [bne, hlk]
      simp [hsel, hlk, hlk'']
    · have hlk' : (statusLookupId o != "") = true := by simp [bne, hlk]
      by_cases hdt : dispatchThrew d dres
      · simp [hsel, hlk, hlk', hdt]
      · by_cases hF : (jsTruthyOpt (resolveTracking o d dres) &&
            (mapDealStatus o.status d.status == "shipped") && (o.status != "shipped")) = true
        · cases fulfillOk <;> simp [hsel, hlk, hlk', hdt, hF]
        · have hF' : (jsTruthyOpt (resolveTracking o d dres) &&
              (mapDealStatus o.status d.status == "shipped") && (o.status != "shipped")) = false := by
            revert hF
            cases jsTruthyOpt (resolveTracking o d dres) &&
              (mapDealStatus o.status d.status == "shipped") && (o.status != "shipped") <;> simp
          simp [hsel, hlk, hlk', hdt, hF']
  · have hsel' : statusSyncSelects o = false := by
      revert hsel
      cases statusSyncSelects o <;> simp
    simp [hsel']

/-- C7 (amended): only orders in status `sent` or `confirmed` are polled; an
order in any other status — in particular `shipped` — is left completely
untouched by a reconciliation pass (no gateway call, no update, no counter),
so a `shipped` order never transitions to `delivered` through this loop. -/
theorem statusSync_not_selected_unchanged (o : OrderRow) (fetch : StatusFetch)
    (dres : DispatchFetch) (fulfillOk : Bool) (now : Nat)
    (hs : o.status ≠ "sent") (hc : o.status ≠ "confirmed") :
    statusSyncRunRow o fetch dres fulfillOk now = ⟨o, false, 0, 0⟩ := by
  have h : statusSyncSelects o = false := by
    simp [statusSyncSelects, hs, hc]
  simp [statusSyncRunRow, h]

/-- Witness for `statusSync_not_selected_unchanged` on a `shipped` order. -/
theorem statusSync_not_selected_unchanged_witness :
    c7Row.status ≠ "sent" ∧
    statusSyncRunRow c7Row (.returned (some c7Deal)) (.returned ⟨[], []⟩) true 7 =
      ⟨c7Row, false, 0, 0⟩ :=
  ⟨by decide,
   statusSync_not_selected_unchanged c7Row (.returned (some c7Deal)) (.returned ⟨[], []⟩)
     true 7 (by decide) (by decide)⟩

/-- C7 counterexample: a `shipped` order whose supplier status reads
`DELIVERED` is not polled (the query selects only `sent`/`confirmed`) and
stays `shipped` — even though the status mapping would yield `delivered` —
refuting the claim that `shipped` rows are still polled and can transition. -/
theorem statusSync_shipped_not_polled_cex :
    statusSyncSelects c7Row = false ∧
    statusSyncRunRow c7Row (.returned (some c7Deal)) (.returned ⟨[], []⟩) true 7 =
      ⟨c7Row, false, 0, 0⟩ ∧
    mapDealStatus c7Row.status c7Deal.status = "delivered" ∧
    c7Row.status = "shipped" := by
  decide

/-- C8: in the emitted purchase-order document the delivery party's ZIP
element always carries the postal code run through `stripZipPrefix` (leading
uppercase-letter prefix plus hyphen removed, e.g. `"A-1090"` becomes
`"1090"`), in the dropship branch (`deliveryZip || buyerZip`) as well as in
the warehouse branch (`buyerZip`), while the buyer party's own ZIP element
carries the buyer's postal code unstripped (only XML-escaped). -/
theorem buildOrderXml_zip_handling (params : OrderParams) (nowIso : String) :
    existsMid (buildOrderXml params nowIso) (deliveryPartyXml params) ∧
    existsMid (deliveryPartyXml params)
      ("<ns2:ZIP>" ++ escapeXml ( stripZipPrefix
        (if params.dropship then jsOrOpt params.deliveryZip params.buyerZip else params.buyerZip))
        ++ "</ns2:ZIP>") ∧
    existsMid (buildOrderXml params nowIso)
      ("<ns2:ZIP>" ++ escapeXml params.buyerZip ++ "</ns2:ZIP>") ∧
    stripZipPrefix "A-1090" = "1090" := by
  refine ⟨?_, ?_, ?_, by decide⟩
  · simp only [buildOrderXml, strAppendAssoc]
    repeat
      first
        | exact existsMid_here1 _ _
        | apply existsMid_cons
  · simp only [deliveryPartyXml]
    split
    next =>
      simp only [strAppendAssoc]
      repeat
        first
          | exact existsMid_here3 _ _ _ _
          | apply existsMid_cons
    next =>
      simp only [strAppendAssoc]
      repeat
        first
          | exact existsMid_here3 _ _ _ _
          | apply existsMid_cons
  · simp only [buildOrderXml, strAppendAssoc]
    repeat
      first
        | exact existsMid_here3 _ _ _ _
        | apply existsMid_cons

/-- The distributor id stored on the engine-built ledger row. -/
theorem mkOrderRow_distributorId (shop : String) (order : OrderPayload) (d oid : String)
    (drop : Bool) (result : SendOrderResult) :
    (mkOrderRow shop order d oid drop result).distributorId = d := rfl

/-- The own order id stored on the engine-built ledger row. -/
theorem mkOrderRow_itscopeOwnOrderId (shop : String) (order : OrderPayload) (d oid : String)
    (drop : Bool) (result : SendOrderResult) :
    (mkOrderRow shop order d oid drop result).itscopeOwnOrderId = oid := rfl

/-- Rows built by the engine are `"sent"` or `"error"`. -/
theorem rowStatusOk_mkOrderRow (shop : String) (order : OrderPayload) (d oid : String)
    (drop : Bool) (result : SendOrderResult) :
    rowStatusOk (mkOrderRow shop order d oid drop result) = true := by
  cases hs : result.success <;> simp [rowStatusOk, mkOrderRow, hs]

/-- Rows built by the engine are never `"pending"`. -/
theorem mkOrderRow_not_pending (shop : String) (order : OrderPayload) (d oid : String)
    (drop : Bool) (result : SendOrderResult) :
    ((mkOrderRow shop order d oid drop result).status != "pending") = true := by
  cases hs : result.success <;> simp [mkOrderRow, hs]

/-- Step equation: a group whose matched line-item list is empty is skipped. -/
theorem processGroups_cons_skip (shop : String) (order : OrderPayload) (env : EnvConfig)
    (gw : String → String → GatewayBehavior) (nowIso : String) (d : String)
    (ps : List TrackedProduct) (rest : List (String × List TrackedProduct))
    (ledger : List OrderRow)
    (hemp : (groupLineItems order.line_items ps).isEmpty = true) :
    processGroups shop order env gw nowIso ((d, ps) :: rest) ledger =
      processGroups shop order env gw nowIso rest ledger := by
  simp [processGroups, hemp]

/-- Step equation: a gateway call that throws aborts the run after the
submission, before any ledger write. -/
theorem processGroups_cons_throws (shop : String) (order : OrderPayload) (env : EnvConfig)
    (gw : String → String → GatewayBehavior) (nowIso : String) (d : String)
    (ps : List TrackedProduct) (rest : List (String × List TrackedProduct))
    (ledger : List OrderRow)
    (hemp : (groupLineItems order.line_items ps).isEmpty = false)
    (hgw : gw d (buildOrderXml (mkOrderParams env order d
        (ps.any (fun p => p.shippingMode == "dropship"))
        (groupLineItems order.line_items ps)) nowIso) = .throws) :
    processGroups shop order env gw nowIso ((d, ps) :: rest) ledger =
      ⟨ledger, [.submitted d (ownOrderIdOf order)], true⟩ := by
  simp [processGroups, hemp, hgw]

/-- Step equation: a uniqueness violation on the post-submission insert aborts
the run. -/
theorem processGroups_cons_conflict (shop : String) (order : OrderPayload) (env : EnvConfig)
    (gw : String → String → GatewayBehavior) (nowIso : String) (d : String)
    (ps : List TrackedProduct) (rest : List (String × List TrackedProduct))
    (ledger : List OrderRow) (result : SendOrderResult)
    (hemp : (groupLineItems order.line_items ps).isEmpty = false)
    (hgw : gw d (buildOrderXml (mkOrderParams env order d
        (ps.any (fun p => p.shippingMode == "dropship"))
        (groupLineItems order.line_items ps)) nowIso) = .returns result)
    (hkey : ledgerHasKey ledger shop ("gid://shopify/Order/" ++ toString order.id) d = true) :
    processGroups shop order env gw nowIso ((d, ps) :: rest) ledger =
      ⟨ledger,
       [.submitted d (ownOrderIdOf order),
        .insertConflict shop ("gid://shopify/Order/" ++ toString order.id) d],
       true⟩ := by
  simp [processGroups, hemp, hgw, insertOrderRow, mkOrderRow, hkey]

/-- Step equation: the ordinary case — submission, then a successful insert,
then the remaining groups. -/
theorem processGroups_cons_insert (shop : String) (order : OrderPayload) (env : EnvConfig)
    (gw : String → String → GatewayBehavior) (nowIso : String) (d : String)
    (ps : List TrackedProduct) (rest : List (String × List TrackedProduct))
    (ledger : List OrderRow) (result : SendOrderResult)
    (hemp : (groupLineItems order.line_items ps).isEmpty = false)
    (hgw : gw d (buildOrderXml (mkOrderParams env order d
        (ps.any (fun p => p.shippingMode == "dropship"))
        (groupLineItems order.line_items ps)) nowIso) = .returns result)
    (hkey : ledgerHasKey ledger shop ("gid://shopify/Order/" ++ toString order.id) d = false) :
    processGroups shop order env gw nowIso ((d, ps) :: rest) ledger =
      ⟨(processGroups shop order env gw nowIso rest
          (ledger ++ [mkOrderRow shop order d (ownOrderIdOf order)
            (ps.any (fun p => p.shippingMode == "dropship")) result])).ledger,
       .submitted d (ownOrderIdOf order) ::
         .inserted (mkOrderRow shop order d (ownOrderIdOf order)
           (ps.any (fun p => p.shippingMode == "dropship")) result) ::
         (processGroups shop order env gw nowIso rest
           (ledger ++ [mkOrderRow shop order d (ownOrderIdOf order)
             (ps.any (fun p => p.shippingMode == "dropship")) result])).trace,
       (processGroups shop order env gw nowIso rest
         (ledger ++ [mkOrderRow shop order d (ownOrderIdOf order)
           (ps.any (fun p => p.shippingMode == "dropship")) result])).threw⟩ := by
  simp [processGroups, hemp, hgw, insertOrderRow, mkOrderRow, hkey]

/-- Every `handleOrderCreated` trace is well-formed: per-group blocks of
submission-then-insert (status `"sent"`/`"error"`), with a conflict only ever
as final, aborting event. -/
theorem processGroups_traceOk (shop : String) (order : OrderPayload) (env : EnvConfig)
    (gw : String → String → GatewayBehavior) (nowIso : String) :
    ∀ (groups : List (String × List TrackedProduct)) (ledger : List OrderRow),
      traceOk (processGroups shop order env gw nowIso groups ledger).trace = true := by
  intro groups
  induction groups with
  | nil => intro ledger; rfl
  | cons g rest ih =>
    intro ledger
    obtain ⟨d, ps⟩ := g
    by_cases hemp : (groupLineItems order.line_items ps).isEmpty
    · rw [processGroups_cons_skip shop order env gw nowIso d ps rest ledger hemp]
      exact ih ledger
    · have hemp' : (groupLineItems order.line_items ps).isEmpty = false := by
        revert hemp
        cases (groupLineItems order.line_items ps).isEmpty <;> simp
      rcases hgw : gw d (buildOrderXml (mkOrderParams env order d
          (ps.any (fun p => p.shippingMode == "dropship"))
          (groupLineItems order.line_items ps)) nowIso) with _ | result
      · rw [processGroups_cons_throws shop order env gw nowIso d ps rest ledger hemp' hgw]
        rfl
      · cases hkey : ledgerHasKey ledger shop ("gid://shopify/Order/" ++ toString order.id) d
        · rw [processGroups_cons_insert shop order env gw nowIso d ps rest ledger result
            hemp' hgw hkey]
          simp [traceOk, mkOrderRow_distributorId, rowStatusOk_mkOrderRow, ih]
        · rw [processGroups_cons_conflict shop order env gw nowIso d ps rest ledger result
            hemp' hgw hkey]
          simp [traceOk]

/-- No `handleOrderCreated` trace ever inserts a `"pending"` row. -/
theorem processGroups_noPending (shop : String) (order : OrderPayload) (env : EnvConfig)
    (gw : String → String → GatewayBehavior) (nowIso : String) :
    ∀ (groups : List (String × List TrackedProduct)) (ledger : List OrderRow),
      traceNoPending (processGroups shop order env gw nowIso groups ledger).trace = true := by
  intro groups
  induction groups with
  | nil => intro ledger; rfl
  | cons g rest ih =>
    intro ledger
    obtain ⟨d, ps⟩ := g
    by_cases hemp : (groupLineItems order.line_items ps).isEmpty
    · rw [processGroups_cons_skip shop order env gw nowIso d ps rest ledger hemp]
      exact ih ledger
    · have hemp' : (groupLineItems order.line_items ps).isEmpty = false := by
        revert hemp
        cases (groupLineItems order.line_items ps).isEmpty <;> simp
      rcases hgw : gw d (buildOrderXml (mkOrderParams env order d
          (ps.any (fun p => p.shippingMode == "dropship"))
          (groupLineItems order.line_items ps)) nowIso) with _ | result
      · rw [processGroups_cons_throws shop order env gw nowIso d ps rest ledger hemp' hgw]
        rfl
      · cases hkey : ledgerHasKey ledger shop ("gid://shopify/Order/" ++ toString order.id) d
        · rw [processGroups_cons_insert shop order env gw nowIso d ps rest ledger result
            hemp' hgw hkey]
          have hrec := ih (ledger ++ [mkOrderRow shop order d (ownOrderIdOf order)
            (ps.any (fun p => p.shippingMode == "dropship")) result])
          have hnp := mkOrderRow_not_pending shop order d (ownOrderIdOf order)
            (ps.any (fun p => p.shippingMode == "dropship")) result
          simp [traceNoPending] at hrec hnp ⊢
          exact ⟨hnp, hrec⟩
        · rw [processGroups_cons_conflict shop order env gw nowIso d ps rest ledger result
            hemp' hgw hkey]
          rfl

/-- Every own order id mentioned in an engine trace is the single
`ownOrderIdOf order` value. -/
theorem processGroups_ownIds (shop : String) (order : OrderPayload) (env : EnvConfig)
    (gw : String → String → GatewayBehavior) (nowIso : String) :
    ∀ (groups : List (String × List TrackedProduct)) (ledger : List OrderRow),
      traceOwnIdsAll (processGroups shop order env gw nowIso groups ledger).trace
        (ownOrderIdOf order) = true := by
  intro groups
  induction groups with
  | nil => intro ledger; rfl
  | cons g rest ih =>
    intro ledger
    obtain ⟨d, ps⟩ := g
    by_cases hemp : (groupLineItems order.line_items ps).isEmpty
    · rw [processGroups_cons_skip shop order env gw nowIso d ps rest ledger hemp]
      exact ih ledger
    · have hemp' : (groupLineItems order.line_items ps).isEmpty = false := by
        revert hemp
        cases (groupLineItems order.line_items ps).isEmpty <;> simp
      rcases hgw : gw d (buildOrderXml (mkOrderParams env order d
          (ps.any (fun p => p.shippingMode == "dropship"))
          (groupLineItems order.line_items ps)) nowIso) with _ | result
      · rw [processGroups_cons_throws shop order env gw nowIso d ps rest ledger hemp' hgw]
        simp [traceOwnIdsAll]
      · cases hkey : ledgerHasKey ledger shop ("gid://shopify/Order/" ++ toString order.id) d
        · rw [processGroups_cons_insert shop order env gw nowIso d ps rest ledger result
            hemp' hgw hkey]
          have hrec := ih (ledger ++ [mkOrderRow shop order d (ownOrderIdOf order)
            (ps.any (fun p => p.shippingMode == "dropship")) result])
          simp [traceOwnIdsAll, mkOrderRow_itscopeOwnOrderId] at hrec ⊢
          exact hrec
        · rw [processGroups_cons_conflict shop order env gw nowIso d ps rest ledger result
            hemp' hgw hkey]
          simp [traceOwnIdsAll]

/-- Updating an existing group in place does not change the key list. -/
theorem map_fst_update (acc : List (String × List TrackedProduct)) (k : String)
    (tp : TrackedProduct) :
    (acc.map (fun g => if g.1 == k then (g.1, g.2 ++ [tp]) else g)).map Prod.fst =
      acc.map Prod.fst := by
  induction acc with
  | nil => rfl
  | cons a t ih =>
    simp only [List.map_cons, ih]
    congr 1
    by_cases h : a.1 == k <;> simp [h]

/-- One grouping step preserves distinctness of the distributor keys. -/
theorem gbStep_nodup (acc : List (String × List TrackedProduct)) (tp : TrackedProduct)
    (h : (acc.map Prod.fst).Nodup) : ((gbStep acc tp).map Prod.fst).Nodup := by
  by_cases hmem : acc.any (fun g => g.1 == tp.distributorId)
  · simp only [gbStep]
    rw [if_pos hmem, map_fst_update]
    exact h
  · have hnot : tp.distributorId ∉ acc.map Prod.fst := by
      intro hmem'
      obtain ⟨g, hg, hfst⟩ := List.mem_map.mp hmem'
      exact hmem (List.any_eq_true.mpr ⟨g, hg, by simp [hfst]⟩)
    simp only [gbStep]
    rw [if_neg hmem]
    simp only [List.map_append, List.map_cons, List.map_nil]
    refine List.Nodup.append h (List.nodup_singleton _) ?_
    intro a ha hb
    simp only [List.mem_singleton] at hb
    subst hb
    exact hnot ha


/-- The grouping fold preserves key distinctness from any accumulator. -/
theorem foldl_gbStep_nodup (tps : List TrackedProduct) :
    ∀ acc : List (String × List TrackedProduct),
      (acc.map Prod.fst).Nodup → ((tps.foldl gbStep acc).map Prod.fst).Nodup := by
  induction tps with
  | nil => intro acc h; simpa using h
  | cons a t ih => intro acc h; exact ih (gbStep acc a) (gbStep_nodup acc a h)

/-- Distributor groups have pairwise-distinct distributor ids. -/
theorem groupByDistributor_keys_nodup (tps : List TrackedProduct) :
    ((groupByDistributor tps).map Prod.fst).Nodup :=
  foldl_gbStep_nodup tps [] (by simp)

/-- When both guard queries are non-empty the engine is exactly the group
loop. -/
theorem handleOrderCreated_run (shop : String) (order : OrderPayload) (db : List TrackedProduct)
    (env : EnvConfig) (gw : String → String → GatewayBehavior) (nowIso : String)
    (ledger : List OrderRow)
    (hids : ((order.line_items.map (fun li => li.product_id)).filter (fun s => s != "")).isEmpty
       = false)
    (hmp : (matchedProducts shop order db).isEmpty = false) :
    handleOrderCreated shop order db env gw nowIso ledger =
      processGroups shop order env gw nowIso
        (groupByDistributor (matchedProducts shop order db)) ledger := by
  simp [handleOrderCreated, hids, hmp]

/-- Isolation of distributor groups when no gateway call throws: starting from
a ledger free of this order's keys, the run finishes without an exception and
every group with a nonempty line-item list gets its gateway result recorded as
a ledger row (built by `mkOrderRow`, hence `"sent"` on success and `"error"`
on failure), regardless of the other groups' results. -/
theorem processGroups_isolated (shop : String) (order : OrderPayload) (env : EnvConfig)
    (gw : String → String → GatewayBehavior) (nowIso : String)
    (hng : ∀ d x, gw d x ≠ GatewayBehavior.throws) :
    ∀ (groups : List (String × List TrackedProduct)) (ledger : List OrderRow),
      (groups.map Prod.fst).Nodup →
      (∀ gp ∈ groups,
        ledgerHasKey ledger shop ("gid://shopify/Order/" ++ toString order.id) gp.1 = false) →
      (processGroups shop order env gw nowIso groups ledger).threw = false ∧
      ∀ gp ∈ groups, (groupLineItems order.line_items gp.2).isEmpty = false →
        ∃ result,
          gw gp.1 (buildOrderXml (mkOrderParams env order gp.1
            (gp.2.any (fun p => p.shippingMode == "dropship"))
            (groupLineItems order.line_items gp.2)) nowIso) = GatewayBehavior.returns result ∧
          mkOrderRow shop order gp.1 (ownOrderIdOf order)
              (gp.2.any (fun p => p.shippingMode == "dropship")) result
            ∈ insertedRows (processGroups shop order env gw nowIso groups ledger).trace := by
  intro groups
  induction groups with
  | nil =>
    intro ledger _ _
    exact ⟨rfl, fun gp hgp => absurd hgp (by simp)⟩
  | cons g rest ih =>
    intro ledger hnd hfresh
    obtain ⟨d, ps⟩ := g
    have hnd' : (d :: rest.map Prod.fst).Nodup := by simpa using hnd
    have hdnot : d ∉ rest.map Prod.fst := (List.nodup_cons.mp hnd').1
    have hndtail : (rest.map Prod.fst).Nodup := (List.nodup_cons.mp hnd').2
    by_cases hemp : (groupLineItems order.line_items ps).isEmpty
    · rw [processGroups_cons_skip shop order env gw nowIso d ps rest ledger hemp]
      obtain ⟨hthrew, hmem⟩ := ih ledger hndtail
        (fun gp hgp => hfresh gp (List.mem_cons_of_mem _ hgp))
      refine ⟨hthrew, ?_⟩
      intro gp hgp hne
      rcases List.mem_cons.mp hgp with heq | htail
      · rw [heq] at hne
        simp only [] at hne
        rw [hne] at hemp
        simp at hemp
      · exact hmem gp htail hne
    · have hemp' : (groupLineItems order.line_items ps).isEmpty = false := by
        revert hemp
        cases (groupLineItems order.line_items ps).isEmpty <;> simp
      rcases hgw : gw d (buildOrderXml (mkOrderParams env order d
          (ps.any (fun p => p.shippingMode == "dropship"))
          (groupLineItems order.line_items ps)) nowIso) with _ | result
      · exact absurd hgw (hng _ _)
      · have hkey : ledgerHasKey ledger shop
            ("gid://shopify/Order/" ++ toString order.id) d = false := by
          simpa using hfresh (d, ps) (List.mem_cons_self _ _)
        rw [processGroups_cons_insert shop order env gw nowIso d ps rest ledger result
          hemp' hgw hkey]
        have hfr : ∀ gp ∈ rest,
            ledgerHasKey (ledger ++ [mkOrderRow shop order d (ownOrderIdOf order)
              (ps.any (fun p => p.shippingMode == "dropship")) result])
              shop ("gid://shopify/Order/" ++ toString order.id) gp.1 = false := by
          intro gp hgp
          have h1 := hfresh gp (List.mem_cons_of_mem _ hgp)
          have h2 : (d == gp.1) = false := by
            have hne : d ≠ gp.1 := by
              intro hde
              exact hdnot (hde ▸ List.mem_map_of_mem Prod.fst hgp)
            simp [hne]
          simp only [ledgerHasKey, List.any_append] at h1 ⊢
          rw [h1]
          simp [mkOrderRow, h2]
        obtain ⟨hthrew, hmem⟩ := ih
          (ledger ++ [mkOrderRow shop order d (ownOrderIdOf order)
            (ps.any (fun p => p.shippingMode == "dropship")) result]) hndtail hfr
        constructor
        · simpa using hthrew
        · intro gp hgp hne
          rcases List.mem_cons.mp hgp with heq | htail
          · subst heq
            refine ⟨result, hgw, ?_⟩
            simp [insertedRows]
          · obtain ⟨result', hgw', hmem'⟩ := hmem gp htail hne
            refine ⟨result', hgw', ?_⟩
            simp only [insertedRows, List.filterMap_cons] at hmem' ⊢
            exact List.mem_cons_of_mem _ hmem'

/-- C2 (amended): a gateway call that merely returns an unsuccessful result
does not prevent the remaining distributor groups — when no gateway call
throws, the delivery processes every distributor group with a nonempty
line-item list and records its own ledger row (`"sent"`/`"error"` according to
its own gateway result); but a gateway call that throws does abort the
remaining groups of that delivery, as the concrete two-group run `c2Run`
(group `B` throws first, group `A` is never processed) shows. -/
theorem handleOrderCreated_isolation (shop : String) (order : OrderPayload)
    (db : List TrackedProduct) (env : EnvConfig) (gw : String → String → GatewayBehavior)
    (nowIso : String)
    (hng : ∀ d x, gw d x ≠ GatewayBehavior.throws)
    (hids : ((order.line_items.map (fun li => li.product_id)).filter (fun s => s != "")).isEmpty
       = false)
    (hmp : (matchedProducts shop order db).isEmpty = false) :
    (handleOrderCreated shop order db env gw nowIso []).threw = false ∧
    (∀ gp ∈ groupByDistributor (matchedProducts shop order db),
      (groupLineItems order.line_items gp.2).isEmpty = false →
      ∃ result,
        gw gp.1 (buildOrderXml (mkOrderParams env order gp.1
          (gp.2.any (fun p => p.shippingMode == "dropship"))
          (groupLineItems order.line_items gp.2)) nowIso) = GatewayBehavior.returns result ∧
        mkOrderRow shop order gp.1 (ownOrderIdOf order)
            (gp.2.any (fun p => p.shippingMode == "dropship")) result
          ∈ insertedRows (handleOrderCreated shop order db env gw nowIso []).trace) ∧
    c2Run.threw = true ∧
    insertedRows c2Run.trace = [] := by
  have hrun := handleOrderCreated_run shop order db env gw nowIso [] hids hmp
  rw [hrun]
  obtain ⟨h1, h2⟩ := processGroups_isolated shop order env gw nowIso hng
    (groupByDistributor (matchedProducts shop order db)) []
    (groupByDistributor_keys_nodup _) (fun gp _ => rfl)
  exact ⟨h1, h2, by decide, by decide⟩

/-- Witness for `handleOrderCreated_isolation`: the never-throwing gateway
`cexGw` on the two-group order finishes without an exception. -/
theorem handleOrderCreated_isolation_witness :
    (∀ d x, cexGw d x ≠ GatewayBehavior.throws) ∧
    (handleOrderCreated cexShop c2Order c2Db cexEnv cexGw "t0" []).threw = false :=
  ⟨fun d x => by simp [cexGw],
   (handleOrderCreated_isolation cexShop c2Order c2Db cexEnv cexGw "t0"
     (fun d x => by simp [cexGw]) (by decide) (by decide)).1⟩

/-- C2 counterexample: with distributor `B`'s gateway call throwing, the run
aborts — group `A` is never submitted, gets no ledger row and never reaches
`"sent"`, refuting the claim that a throwing submission leaves the remaining
groups unaffected. -/
theorem handleOrderCreated_throw_aborts_cex :
    c2Run.threw = true ∧
    c2Run.ledger = [] ∧
    insertedRows c2Run.trace = [] ∧
    c2Run.trace = [.submitted "B" (ownOrderIdOf c2Order)] := by
  decide

/-- C1 (amended): the engine contacts the supplier FIRST and writes the
ledger row AFTERWARDS: every trace consists of per-group
submission-then-insert blocks, every inserted row already carries status
`"sent"` or `"error"` and never `"pending"`, and an insert that hits the
uniqueness constraint is an uncaught, run-ending event.  Consequently a
duplicate delivery is not deduplicated before the supplier call: the concrete
runs `cexRun1`/`cexRun2` each perform one submission for the same group (two
in total) while the ledger keeps the single row of the first run. -/
theorem handleOrderCreated_submit_first :
    (∀ (shop : String) (order : OrderPayload) (db : List TrackedProduct) (env : EnvConfig)
        (gw : String → String → GatewayBehavior) (nowIso : String) (ledger : List OrderRow),
      traceOk (handleOrderCreated shop order db env gw nowIso ledger).trace = true ∧
      traceNoPending (handleOrderCreated shop order db env gw nowIso ledger).trace = true) ∧
    countSubmitted cexRun1.trace = 1 ∧
    cexRun1.ledger.length = 1 ∧
    countSubmitted cexRun2.trace = 1 ∧
    cexRun2.ledger = cexRun1.ledger := by
  refine ⟨?_, by decide, by decide, by decide, by decide⟩
  intro shop order db env gw nowIso ledger
  constructor
  · simp only [handleOrderCreated]
    split
    · rfl
    · split
      · rfl
      · exact processGroups_traceOk shop order env gw nowIso _ ledger
  · simp only [handleOrderCreated]
    split
    · rfl
    · split
      · rfl
      · exact processGroups_noPending shop order env gw nowIso _ ledger

/-- C1 counterexample: delivering the same "order created" event twice
performs one supplier submission per delivery — two in total for the single
distributor group — and the only row ever inserted is already `"sent"`, never
`"pending"`; this refutes the claimed claim-slot-then-submit order and the
claimed at-most-one-submission guarantee. -/
theorem handleOrderCreated_duplicate_cex :
    countSubmitted cexRun1.trace = 1 ∧
    countSubmitted cexRun2.trace = 1 ∧
    cexRun1.ledger.length = 1 ∧
    cexRun2.ledger = cexRun1.ledger ∧
    traceNoPending (cexRun1.trace ++ cexRun2.trace) = true ∧
    (insertedRows cexRun1.trace).map (fun r => r.status) = ["sent"] := by
  decide

/-- C3 (amended): the engine computes the own order id deterministically
before any supplier contact, but it is the SAME identifier — `"SH"` followed
by the order number, truncated to 18 characters — for every distributor group;
no per-group index suffix distinguishes subsequent groups.  Every identifier
is at most 18 characters. -/
theorem ownOrderId_uniform (shop : String) (order : OrderPayload) (db : List TrackedProduct)
    (env : EnvConfig) (gw : String → String → GatewayBehavior) (nowIso : String)
    (ledger : List OrderRow) :
    traceOwnIdsAll (handleOrderCreated shop order db env gw nowIso ledger).trace
      (ownOrderIdOf order) = true ∧
    (ownOrderIdOf order).length ≤ 18 := by
  constructor
  · simp only [handleOrderCreated]
    split
    · rfl
    · split
      · rfl
      · exact processGroups_ownIds shop order env gw nowIso _ ledger
  · have h : (ownOrderIdOf order).length =
        (("SH" ++ toString order.order_number).data.take 18).length := rfl
    rw [h, List.length_take]
    exact min_le_left _ _

/-- C3 counterexample: an order hitting two distributor groups produces two
ledger rows whose own order ids are BOTH `"SH1002"` — the second group's id is
not `"SH1002/1"` as the claim requires. -/
theorem ownOrderId_no_suffix_cex :
    (insertedRows c3Run.trace).length = 2 ∧
    (insertedRows c3Run.trace).map (fun r => r.itscopeOwnOrderId) = ["SH1002", "SH1002"] := by
  decide

end ItScopeConnector
